import Mathlib

/-!
Verification of the JTAG scan-chain transport layer of `rvdbg`
(`src/jtag/device.go`).

The `bitstr` bit-sequence package and the `Chain` type are part of the
repository but their sources are not available here; their operations are
modelled from the specification (each such definition carries a
`Modelled from the spec:` doc comment).  `src/jtag/device.go` is embedded
function by function.
-/

namespace Rvdbg

/-- Modelled from the spec: a Bit Sequence is an ordered, arbitrary-length
sequence of bits (most-significant bit first, fixed once and used
consistently). -/
abbrev BitString := List Bool

namespace BitString

/-- Modelled from the spec: `ones(n)` produces a sequence of `n` set bits. -/
def Ones (n : Nat) : BitString := List.replicate n true

/-- Modelled from the spec: `zeros(n)` produces a sequence of `n` clear bits. -/
def Zeros (n : Nat) : BitString := List.replicate n false

/-- Modelled from the spec: `fromValue(x, width)` produces the low `width`
bits of `x`, most-significant bit first. -/
def FromUint (x : Nat) (width : Nat) : BitString :=
  (List.range width).map (fun i => x.testBit (width - 1 - i))

/-- Modelled from the spec: `append(other)` places `other`'s bits after
this sequence's bits; chainable.  (`bitstr.Tail` in the source.) -/
def Tail (b : BitString) (other : BitString) : BitString := b ++ other

/-- Modelled from the spec: `appendOnes(n)` appends `n` set bits.
(`bitstr.Tail1` in the source.) -/
def Tail1 (b : BitString) (n : Nat) : BitString := b ++ List.replicate n true

/-- Modelled from the spec: `dropHead(n)` removes the first `n` bits.
(The spec's `RangeError` for `n` exceeding the length is never reached by
the chain-stripping uses verified here, whose drops are in bounds.) -/
def DropHead (b : BitString) (n : Nat) : BitString := b.drop n

/-- Modelled from the spec: `dropTail(n)` removes the last `n` bits. -/
def DropTail (b : BitString) (n : Nat) : BitString := b.take (b.length - n)

/-- The unsigned-integer value of a bit sequence, most-significant bit
first (used by `split` to reinterpret each piece as an unsigned integer). -/
def toNat (b : BitString) : Nat :=
  b.foldl (fun a bit => 2 * a + (if bit then 1 else 0)) 0

/-- Modelled from the spec: `split(lengths)` partitions the sequence into
consecutive pieces of the given lengths, returning each piece
reinterpreted as an unsigned integer. -/
def Split (b : BitString) (ls : List Nat) : List Nat :=
  match ls with
  | [] => []
  | n :: rest => toNat (b.take n) :: Split (b.drop n) rest

end BitString

open BitString

/-- Errors surfaced by the transport layer: transport failures propagated
from the Scan Driver, and the DR-length mismatch produced by `CheckDR`
(`fmt.Errorf("ir %d dr length is %d, expected %d", ...)` in the source,
carrying the instruction, the observed length and the expected length). -/
inductive JError where
  | transport (code : Nat)
  | drLengthError (ir : Nat) (got : Int) (want : Int)
deriving DecidableEq, Repr

/-- Modelled from the spec: the Scan Driver collaborator.  `scanIR` and
`scanDR` perform one raw IR or DR scan cycle: given the chain-wide input
bits (and for DR the idle-cycle count) and whether capture is requested,
they return the captured output sequence or fail with a transport error.
`drLength` is the outcome of the live DR-length probe that the missing
`Chain.drLength` issues through the driver (the stub driver is
"configured to report a DR length", per the spec's test properties). -/
structure Driver where
  scanIR : BitString → Bool → Except JError BitString
  scanDR : BitString → Nat → Bool → Except JError BitString
  drLength : Except JError Int

/-- Modelled from the spec: one TAP descriptor of the chain enumeration:
`{name, idCode, irLength}`. -/
structure DevInfo where
  Name : String
  ID : Nat
  IRLength : Nat

instance : Inhabited DevInfo := ⟨⟨"", 0, 0⟩⟩

/-- Modelled from the spec: the Chain owns the ordered TAP descriptor list
and the Scan Driver. -/
structure Chain where
  info : List DevInfo
  drv : Driver

/-- Modelled from the spec: `Chain.totalDRLength()` issues a live DR-length
probe through the Scan Driver and returns the discovered length, or fails
with a transport error.  (`ch.drLength()` in the source.) -/
def Chain.drLength (ch : Chain) : Except JError Int := ch.drv.drLength

/-- Modelled from the spec: IR bits contributed by the devices strictly
before index `idx` (`ch.info.irLengthBefore(idx)` in the source). -/
def irLengthBefore (info : List DevInfo) (idx : Nat) : Nat :=
  ((info.take idx).map (fun d => d.IRLength)).sum

/-- Modelled from the spec: IR bits contributed by the devices strictly
after index `idx` (`ch.info.irLengthAfter(idx)` in the source). -/
def irLengthAfter (info : List DevInfo) (idx : Nat) : Nat :=
  ((info.drop (idx + 1)).map (fun d => d.IRLength)).sum

/-- `Device` stores the state for a single device on a JTAG chain
(`src/jtag/device.go`). -/
structure Device where
  idx : Nat
  chain : Chain
  drv : Driver
  name : String
  idcode : Nat
  irlen : Nat
  irlenBefore : Nat
  irlenAfter : Nat
  devsBefore : Nat
  devsAfter : Nat

/-- `Chain.NewDevice` (`src/jtag/device.go`): builds the interface object
for the device at index `idx` of the chain. -/
def Chain.NewDevice (ch : Chain) (idx : Nat) : Device :=
  { idx := idx
    chain := ch
    drv := ch.drv
    name := (ch.info.getD idx default).Name
    idcode := (ch.info.getD idx default).ID
    irlen := (ch.info.getD idx default).IRLength
    irlenBefore := irLengthBefore ch.info idx
    irlenAfter := irLengthAfter ch.info idx
    devsBefore := idx
    devsAfter := ch.info.length - idx - 1 }

namespace Device

/-- `WrIR` (`src/jtag/device.go`): writes to IR for a device, placing the
other devices into bypass mode (IR = all ones). -/
def WrIR (dev : Device) (wr : BitString) : Except JError Unit :=
  let tdi := ((Ones dev.irlenBefore).Tail wr).Tail1 dev.irlenAfter
  match dev.drv.scanIR tdi false with
  | .error err => .error err
  | .ok _ => .ok ()

/-- `RdWrIR` (`src/jtag/device.go`): reads and writes IR for a device,
stripping the IR bits of the other devices from the capture. -/
def RdWrIR (dev : Device) (wr : BitString) : Except JError BitString :=
  let tdi := ((Ones dev.irlenBefore).Tail wr).Tail1 dev.irlenAfter
  match dev.drv.scanIR tdi true with
  | .error err => .error err
  | .ok tdo => .ok ((tdo.DropHead dev.irlenBefore).DropTail dev.irlenAfter)

/-- `WrDR` (`src/jtag/device.go`): writes to DR for a device; the other
devices are assumed to be in bypass mode (DR length = 1). -/
def WrDR (dev : Device) (wr : BitString) (idle : Nat) : Except JError Unit :=
  let tdi := ((Ones dev.devsBefore).Tail wr).Tail1 dev.devsAfter
  match dev.drv.scanDR tdi idle false with
  | .error err => .error err
  | .ok _ => .ok ()

/-- `RdWrDR` (`src/jtag/device.go`): reads and writes DR for a device,
stripping the DR bits of the bypassed devices from the capture. -/
def RdWrDR (dev : Device) (wr : BitString) (idle : Nat) : Except JError BitString :=
  let tdi := ((Ones dev.devsBefore).Tail wr).Tail1 dev.devsAfter
  match dev.drv.scanDR tdi idle true with
  | .error err => .error err
  | .ok tdo => .ok ((tdo.DropHead dev.devsBefore).DropTail dev.devsAfter)

/-- `testIRCapture` (`src/jtag/device.go`): writes all-ones to the IR and
checks that the lowest 2 captured bits are `01`.  The Go pair
`(false, err)` on a scan error is modelled as `.error err`. -/
def testIRCapture (dev : Device) : Except JError Bool :=
  match dev.RdWrIR (Ones dev.irlen) with
  | .error err => .error err
  | .ok rd =>
    let val := (rd.Split [dev.irlen]).headD 0
    .ok (val &&& 3 == 1)

/-- `GetIRLength` (`src/jtag/device.go`). -/
def GetIRLength (dev : Device) : Nat := dev.irlen

/-- `GetIDCode` (`src/jtag/device.go`). -/
def GetIDCode (dev : Device) : Nat := dev.idcode

/-- `GetDRLength` (`src/jtag/device.go`): returns the current DR length
for the device, from a fresh chain-wide probe. -/
def GetDRLength (dev : Device) : Except JError Int :=
  match dev.chain.drLength with
  | .error err => .error err
  | .ok n => .ok (n - dev.devsAfter - dev.devsBefore)

/-- `CheckDR` (`src/jtag/device.go`): verifies the DR length for a given
IR and returns the DR value.  Note the source's `return 0, nil` on the
first two error paths, modelled faithfully as `.ok 0`. -/
def CheckDR (dev : Device) (ir : Nat) (drlen : Int) : Except JError Nat :=
  match dev.WrIR (FromUint ir dev.irlen) with
  | .error _ => .ok 0
  | .ok _ =>
    match dev.GetDRLength with
    | .error _ => .ok 0
    | .ok n =>
      if n ≠ drlen then .error (.drLengthError ir n drlen)
      else
        match dev.RdWrDR (Zeros drlen.toNat) 0 with
        | .error err => .error err
        | .ok tdo => .ok ((tdo.Split [drlen.toNat]).headD 0)

/-- The report lines built by `Survey` (`src/jtag/device.go`), one per IR
value in `[0, 2^irlen)`; the loop appends exactly one line per value and
continues on a per-value failure. -/
def surveyLines (dev : Device) : List String :=
  (List.range (2 ^ dev.irlen)).map (fun ir =>
    match dev.WrIR (FromUint ir dev.irlen) with
    | .error _ => "ir " ++ toString ir ++ " can\x27t write ir"
    | .ok _ =>
      match dev.chain.drLength with
      | .error _ => "ir " ++ toString ir ++ " drlen unknown"
      | .ok n =>
        "ir " ++ toString ir ++ " drlen " ++
          toString (n - dev.devsAfter - dev.devsBefore))

/-- `Survey` (`src/jtag/device.go`): a string with all IR values and the
corresponding DR lengths (`strings.Join(s, "\n")`). -/
def Survey (dev : Device) : String := String.intercalate "\n" dev.surveyLines

end Device

/-! ### Helper lemmas -/

/-- The bypass-padding construction used by the device scans, in the
spec's `ones(before) ++ bits ++ ones(after)` form. -/
theorem tail1_ones_append (b a : Nat) (wr : BitString) :
    ((Ones b).Tail wr).Tail1 a = Ones b ++ wr ++ Ones a := by
  simp [BitString.Tail, BitString.Tail1, BitString.Ones]

/-- Stripping the head and tail padding of a chain-wide capture leaves
exactly the middle section. -/
theorem dropHead_dropTail_append (pre mid post : BitString) :
    ((pre ++ mid ++ post).DropHead pre.length).DropTail post.length = mid := by
  unfold BitString.DropHead BitString.DropTail
  rw [List.append_assoc, List.drop_left]
  have hlen : (mid ++ post).length - post.length = mid.length := by
    simp
  rw [hlen, List.take_left]

/-- `split` with a single length takes the value of the first `k` bits. -/
theorem split_single (b : BitString) (k : Nat) :
    (b.Split [k]).headD 0 = BitString.toNat (b.take k) := rfl

/-- The value of a bit sequence ending in two bits, in terms of the
prefix value and those bits. -/
theorem toNat_append_two (l : BitString) (b1 b0 : Bool) :
    BitString.toNat (l ++ [b1, b0]) =
      4 * BitString.toNat l + 2 * (if b1 then 1 else 0) + (if b0 then 1 else 0) := by
  unfold BitString.toNat
  rw [List.foldl_append]
  cases b1 <;> cases b0 <;> simp <;> ring

/-- `WrIR` as a single driver call on the padded chain-wide sequence. -/
theorem wrIR_eq (dev : Device) (wr : BitString) :
    dev.WrIR wr =
      (dev.drv.scanIR (Ones dev.irlenBefore ++ wr ++ Ones dev.irlenAfter)
          false).map (fun _ => ()) := by
  simp only [Device.WrIR, tail1_ones_append]
  cases hv : dev.drv.scanIR (Ones dev.irlenBefore ++ wr ++ Ones dev.irlenAfter) false <;>
    simp [Except.map]

/-- `RdWrIR` as a single driver call on the padded chain-wide sequence,
followed by the head/tail strip. -/
theorem rdWrIR_eq (dev : Device) (wr : BitString) :
    dev.RdWrIR wr =
      (dev.drv.scanIR (Ones dev.irlenBefore ++ wr ++ Ones dev.irlenAfter)
          true).map (fun tdo => (tdo.DropHead dev.irlenBefore).DropTail dev.irlenAfter) := by
  simp only [Device.RdWrIR, tail1_ones_append]
  cases hv : dev.drv.scanIR (Ones dev.irlenBefore ++ wr ++ Ones dev.irlenAfter) true <;>
    simp [Except.map]

/-- `WrDR` as a single driver call on the padded chain-wide sequence. -/
theorem wrDR_eq (dev : Device) (wr : BitString) (idle : Nat) :
    dev.WrDR wr idle =
      (dev.drv.scanDR (Ones dev.devsBefore ++ wr ++ Ones dev.devsAfter) idle
          false).map (fun _ => ()) := by
  simp only [Device.WrDR, tail1_ones_append]
  cases hv : dev.drv.scanDR (Ones dev.devsBefore ++ wr ++ Ones dev.devsAfter) idle false <;>
    simp [Except.map]

/-- `RdWrDR` as a single driver call on the padded chain-wide sequence,
followed by the head/tail strip. -/
theorem rdWrDR_eq (dev : Device) (wr : BitString) (idle : Nat) :
    dev.RdWrDR wr idle =
      (dev.drv.scanDR (Ones dev.devsBefore ++ wr ++ Ones dev.devsAfter) idle
          true).map (fun tdo => (tdo.DropHead dev.devsBefore).DropTail dev.devsAfter) := by
  simp only [Device.RdWrDR, tail1_ones_append]
  cases hv : dev.drv.scanDR (Ones dev.devsBefore ++ wr ++ Ones dev.devsAfter) idle true <;>
    simp [Except.map]

/-- A loopback Scan Driver that echoes back whatever chain-wide sequence
it was given (the spec's stub driver); its DR-length probe reports 1. -/
def echoDrv : Driver :=
  { scanIR := fun tdi _ => .ok tdi
    scanDR := fun tdi _ _ => .ok tdi
    drLength := .ok 1 }

/-- A concrete device sitting between one device before and one device
after it on the chain, driven by the loopback driver. -/
def devMid : Device :=
  { idx := 1, chain := ⟨[⟨"a", 0, 3⟩, ⟨"b", 0, 4⟩, ⟨"c", 0, 2⟩], echoDrv⟩,
    drv := echoDrv, name := "b", idcode := 0, irlen := 4,
    irlenBefore := 3, irlenAfter := 2, devsBefore := 1, devsAfter := 1 }

/-! ### Claims -/

/-- C1: `WrIR` sends to the Scan Driver's IR scan exactly
`ones(irlenBefore) ++ bits ++ ones(irlenAfter)` with capture not
requested; on a 2-device chain where device 1 has `irlen = 4`,
`irlenBefore = 5`, `irlenAfter = 0`, writing `fromValue(0b1010, 4)`
produces the 9-bit chain-wide scan input `11111 1010`. -/
theorem wrIR_sends_padded_chain :
    (∀ (dev : Device) (wr : BitString),
      dev.WrIR wr =
        (dev.drv.scanIR (Ones dev.irlenBefore ++ wr ++ Ones dev.irlenAfter)
            false).map (fun _ => ())) ∧
    (∀ d : Driver,
      (Chain.NewDevice ⟨[⟨"dev0", 1, 5⟩, ⟨"dev1", 2, 4⟩], d⟩ 1).irlenBefore = 5 ∧
      (Chain.NewDevice ⟨[⟨"dev0", 1, 5⟩, ⟨"dev1", 2, 4⟩], d⟩ 1).irlenAfter = 0 ∧
      (Chain.NewDevice ⟨[⟨"dev0", 1, 5⟩, ⟨"dev1", 2, 4⟩], d⟩ 1).WrIR (FromUint 10 4) =
        (d.scanIR [true, true, true, true, true, true, false, true, false] false).map
          (fun _ => ())) := by
  refine ⟨wrIR_eq, fun d => ⟨rfl, rfl, ?_⟩⟩
  rw [wrIR_eq]
  exact rfl

/-- C2: `WrDR` and `RdWrDR` both send `ones(devsBefore) ++ bits ++
ones(devsAfter)` to the DR scan together with the caller-supplied idle
count, and `RdWrDR` strips `devsBefore` bits from the head and
`devsAfter` bits from the tail of the capture, returning exactly this
device's DR capture. -/
theorem wrDR_rdWrDR_padded_strip :
    (∀ (dev : Device) (wr : BitString) (idle : Nat),
      dev.WrDR wr idle =
        (dev.drv.scanDR (Ones dev.devsBefore ++ wr ++ Ones dev.devsAfter) idle
            false).map (fun _ => ())) ∧
    (∀ (dev : Device) (wr : BitString) (idle : Nat),
      dev.RdWrDR wr idle =
        (dev.drv.scanDR (Ones dev.devsBefore ++ wr ++ Ones dev.devsAfter) idle
            true).map (fun tdo => (tdo.DropHead dev.devsBefore).DropTail dev.devsAfter)) ∧
    (∀ (dev : Device) (wr : BitString) (idle : Nat) (pre mid post : BitString),
      pre.length = dev.devsBefore → post.length = dev.devsAfter →
      dev.drv.scanDR (Ones dev.devsBefore ++ wr ++ Ones dev.devsAfter) idle true =
        .ok (pre ++ mid ++ post) →
      dev.RdWrDR wr idle = .ok mid) := by
  refine ⟨wrDR_eq, rdWrDR_eq, ?_⟩
  intro dev wr idle pre mid post hpre hpost hscan
  rw [rdWrDR_eq, hscan]
  simp only [Except.map]
  rw [← hpre, ← hpost, dropHead_dropTail_append]

/-- Witness for C2: the device between two bypassed neighbours, through
the loopback driver, gets back exactly its own 2-bit DR capture. -/
theorem wrDR_rdWrDR_padded_strip_witness :
    devMid.RdWrDR [true, false] 0 = .ok [true, false] :=
  wrDR_rdWrDR_padded_strip.2.2 devMid [true, false] 0 [true] [true, false] [true]
    rfl rfl rfl

/-- C3: `RdWrIR` sends the same padded chain-wide sequence as `WrIR` but
with capture requested, and strips `irlenBefore` head bits and
`irlenAfter` tail bits from the capture; through a loopback driver the
stripped result equals the `irlen`-bit value that was written. -/
theorem rdWrIR_padded_strip_loopback :
    (∀ (dev : Device) (wr : BitString),
      dev.RdWrIR wr =
        (dev.drv.scanIR (Ones dev.irlenBefore ++ wr ++ Ones dev.irlenAfter)
            true).map (fun tdo => (tdo.DropHead dev.irlenBefore).DropTail dev.irlenAfter)) ∧
    (∀ (dev : Device) (wr : BitString),
      (∀ tdi c, dev.drv.scanIR tdi c = .ok tdi) → wr.length = dev.irlen →
      dev.RdWrIR wr = .ok wr) := by
  refine ⟨rdWrIR_eq, fun dev wr hecho _ => ?_⟩
  rw [rdWrIR_eq, hecho]
  simp only [Except.map]
  have h := dropHead_dropTail_append (Ones dev.irlenBefore) wr (Ones dev.irlenAfter)
  rw [show (Ones dev.irlenBefore).length = dev.irlenBefore from by
        simp [BitString.Ones],
      show (Ones dev.irlenAfter).length = dev.irlenAfter from by
        simp [BitString.Ones]] at h
  rw [h]

/-- Witness for C3: the round trip through the loopback driver returns
the written 4-bit IR value unchanged. -/
theorem rdWrIR_padded_strip_loopback_witness :
    devMid.RdWrIR [true, false, true, true] = .ok [true, false, true, true] :=
  rdWrIR_padded_strip_loopback.2 devMid [true, false, true, true]
    (fun _ _ => rfl) rfl

/-- A Scan Driver on which every scan fails with a transport error. -/
def deadDrv : Driver :=
  { scanIR := fun _ _ => .error (.transport 7)
    scanDR := fun _ _ _ => .error (.transport 7)
    drLength := .error (.transport 9) }

/-- A lone device driven by the always-failing driver. -/
def devDead : Device :=
  { idx := 0, chain := ⟨[⟨"d", 0, 4⟩], deadDrv⟩, drv := deadDrv, name := "d",
    idcode := 0, irlen := 4, irlenBefore := 0, irlenAfter := 0,
    devsBefore := 0, devsAfter := 0 }

/-- A Scan Driver whose scans echo their input but whose DR-length probe
fails with a transport error. -/
def probeFailDrv : Driver :=
  { scanIR := fun tdi _ => .ok tdi
    scanDR := fun tdi _ _ => .ok tdi
    drLength := .error (.transport 9) }

/-- A lone device driven by the failing-probe driver. -/
def devProbeFail : Device :=
  { idx := 0, chain := ⟨[⟨"d", 0, 4⟩], probeFailDrv⟩, drv := probeFailDrv, name := "d",
    idcode := 0, irlen := 4, irlenBefore := 0, irlenAfter := 0,
    devsBefore := 0, devsAfter := 0 }

/-- C4 (code bug): when the initial IR write inside `CheckDR` fails with
a transport error, or when the DR-length probe fails, `CheckDR` does NOT
propagate the error: the source's first two error branches execute
`return 0, nil`, so `CheckDR` succeeds with value 0 even though the
inner step failed.  This theorem evaluates the code at both failing
inputs. -/
theorem checkDR_swallows_transport_error :
    devDead.CheckDR 3 1 = .ok 0 ∧
    devDead.WrIR (FromUint 3 4) = .error (.transport 7) ∧
    devProbeFail.CheckDR 3 1 = .ok 0 ∧
    devProbeFail.GetDRLength = .error (.transport 9) :=
  ⟨rfl, rfl, rfl, rfl⟩

/-- C5: when every scan inside it succeeds, `CheckDR` writes `ir` to the
device's IR, probes the device's current DR length, fails with an error
carrying the instruction, the observed length and the expected length on
a mismatch, and on a match shifts a zero-filled DR sequence of length
`drlen` and returns the captured value as an unsigned integer. -/
theorem checkDR_verifies_length_and_reads :
    ∀ (dev : Device) (ir : Nat) (drlen : Int) (bs : BitString) (n : Int),
      dev.drv.scanIR (Ones dev.irlenBefore ++ FromUint ir dev.irlen ++ Ones dev.irlenAfter)
          false = .ok bs →
      dev.chain.drLength = .ok n →
      ((n - dev.devsAfter - dev.devsBefore ≠ drlen →
          dev.CheckDR ir drlen =
            .error (.drLengthError ir (n - dev.devsAfter - dev.devsBefore) drlen)) ∧
       (n - dev.devsAfter - dev.devsBefore = drlen →
          ∀ tdo,
            dev.drv.scanDR (Ones dev.devsBefore ++ Zeros drlen.toNat ++ Ones dev.devsAfter)
                0 true = .ok tdo →
            dev.CheckDR ir drlen =
              .ok (BitString.toNat
                (((tdo.DropHead dev.devsBefore).DropTail dev.devsAfter).take
                  drlen.toNat)))) := by
  intro dev ir drlen bs n hIR hprobe
  have hwr : dev.WrIR (FromUint ir dev.irlen) = .ok () := by
    rw [wrIR_eq, hIR]; rfl
  have hlen : dev.GetDRLength = .ok (n - dev.devsAfter - dev.devsBefore) := by
    unfold Device.GetDRLength
    rw [hprobe]
  constructor
  · intro hne
    simp only [Device.CheckDR, hwr, hlen]
    simp [hne]
  · intro heq tdo hDR
    have hrd : dev.RdWrDR (Zeros drlen.toNat) 0 =
        .ok ((tdo.DropHead dev.devsBefore).DropTail dev.devsAfter) := by
      rw [rdWrDR_eq, hDR]; rfl
    simp only [Device.CheckDR, hwr, hlen, heq]
    simp [hrd]
    rfl

/-- A loopback driver whose DR-length probe reports 4. -/
def echoDrv4 : Driver :=
  { scanIR := fun tdi _ => .ok tdi
    scanDR := fun tdi _ _ => .ok tdi
    drLength := .ok 4 }

/-- The middle device of the 3-device chain, driven by the
probe-reports-4 loopback driver. -/
def devMid4 : Device :=
  { idx := 1, chain := ⟨[⟨"a", 0, 3⟩, ⟨"b", 0, 4⟩, ⟨"c", 0, 2⟩], echoDrv4⟩,
    drv := echoDrv4, name := "b", idcode := 0, irlen := 4,
    irlenBefore := 3, irlenAfter := 2, devsBefore := 1, devsAfter := 1 }

/-- Witness for C5: with the stub probe reporting 1 the observed device
DR length is -1 and `CheckDR 3 2` fails carrying (3, -1, 2); with the
probe reporting 4 the observed length matches 2 and `CheckDR 3 2`
returns the captured zero value. -/
theorem checkDR_verifies_length_and_reads_witness :
    devMid.CheckDR 3 2 = .error (.drLengthError 3 (-1) 2) ∧
    devMid4.CheckDR 3 2 = .ok 0 := by
  constructor
  · have h := (checkDR_verifies_length_and_reads devMid 3 2
      (Ones devMid.irlenBefore ++ FromUint 3 devMid.irlen ++ Ones devMid.irlenAfter)
      1 rfl rfl).1 (by decide)
    exact h.trans (by rfl)
  · have h := (checkDR_verifies_length_and_reads devMid4 3 2
      (Ones devMid4.irlenBefore ++ FromUint 3 devMid4.irlen ++ Ones devMid4.irlenAfter)
      4 rfl rfl).2 (by decide)
      (Ones devMid4.devsBefore ++ Zeros (2 : Int).toNat ++ Ones devMid4.devsAfter) rfl
    exact h.trans (by rfl)

/-- C6: `GetDRLength` returns the freshly probed chain-wide DR length
minus `devsBefore` minus `devsAfter` when the probe succeeds, and fails
with the probe's transport error when the probe fails. -/
theorem getDRLength_from_probe :
    ∀ (dev : Device),
      (∀ n : Int, dev.chain.drLength = .ok n →
        dev.GetDRLength = .ok (n - dev.devsBefore - dev.devsAfter)) ∧
      (∀ e, dev.chain.drLength = .error e → dev.GetDRLength = .error e) := by
  intro dev
  constructor
  · intro n h
    unfold Device.GetDRLength
    rw [h]
    exact congrArg Except.ok (by ring)
  · intro e h
    unfold Device.GetDRLength
    rw [h]

/-- Witness for C6: the probe reporting 1 around one bypassed device on
each side yields a device DR length of -1; a failing probe propagates the
transport error. -/
theorem getDRLength_from_probe_witness :
    devMid.GetDRLength = .ok (-1) ∧
    devProbeFail.GetDRLength = .error (.transport 9) := by
  constructor
  · exact ((getDRLength_from_probe devMid).1 1 rfl).trans (by rfl)
  · exact (getDRLength_from_probe devProbeFail).2 (.transport 9) rfl

/-- C7: `NewDevice idx` sets `devsBefore = idx` and
`devsAfter = N - idx - 1`, so `devsBefore + 1 + devsAfter` equals the
chain's device count `N` for every device of the chain. -/
theorem newDevice_position_counts :
    ∀ (ch : Chain) (idx : Nat), idx < ch.info.length →
      (ch.NewDevice idx).devsBefore = idx ∧
      (ch.NewDevice idx).devsAfter = ch.info.length - idx - 1 ∧
      (ch.NewDevice idx).devsBefore + 1 + (ch.NewDevice idx).devsAfter =
        ch.info.length := by
  intro ch idx h
  refine ⟨rfl, rfl, ?_⟩
  show idx + 1 + (ch.info.length - idx - 1) = ch.info.length
  omega

/-- Witness for C7: the middle device of a 3-device chain has one device
before it and one after it, and 1 + 1 + 1 = 3. -/
theorem newDevice_position_counts_witness :
    ((⟨[⟨"a", 0, 3⟩, ⟨"b", 0, 4⟩, ⟨"c", 0, 2⟩], echoDrv⟩ : Chain).NewDevice 1).devsBefore
        = 1 ∧
    ((⟨[⟨"a", 0, 3⟩, ⟨"b", 0, 4⟩, ⟨"c", 0, 2⟩], echoDrv⟩ : Chain).NewDevice 1).devsAfter
        = 1 ∧
    ((⟨[⟨"a", 0, 3⟩, ⟨"b", 0, 4⟩, ⟨"c", 0, 2⟩], echoDrv⟩ : Chain).NewDevice 1).devsBefore
        + 1 +
      ((⟨[⟨"a", 0, 3⟩, ⟨"b", 0, 4⟩, ⟨"c", 0, 2⟩], echoDrv⟩ : Chain).NewDevice 1).devsAfter
        = 3 :=
  newDevice_position_counts ⟨[⟨"a", 0, 3⟩, ⟨"b", 0, 4⟩, ⟨"c", 0, 2⟩], echoDrv⟩ 1
    (by decide)

/-- Merging adjacent all-ones runs. -/
theorem ones_append (m n : Nat) : Ones m ++ Ones n = Ones (m + n) := by
  unfold BitString.Ones
  exact (List.replicate_add m n true).symm

/-- A Scan Driver that fails the IR scan exactly for the chain-wide input
`01` (the injected per-value failure of the spec's survey test); its
DR-length probe reports 1. -/
def failDrv : Driver :=
  { scanIR := fun tdi _ => if tdi = FromUint 1 2 then .error (.transport 1) else .ok tdi
    scanDR := fun tdi _ _ => .ok tdi
    drLength := .ok 1 }

/-- A lone 2-bit-IR device driven by the injected-failure driver. -/
def soloDev : Device :=
  { idx := 0, chain := ⟨[⟨"d", 0, 2⟩], failDrv⟩, drv := failDrv, name := "d",
    idcode := 0, irlen := 2, irlenBefore := 0, irlenAfter := 0,
    devsBefore := 0, devsAfter := 0 }

/-- C8: `Survey` produces exactly one report line per IR value
`0, 1, ..., 2^irlen - 1`, in ascending order: `"ir <n> drlen <m>"` when
the IR write and the DR-length probe succeed, an error line otherwise,
continuing past a per-value failure; a device with `irlen = 2` yields
exactly 4 lines. -/
theorem survey_line_per_ir :
    (∀ dev : Device,
      dev.surveyLines.length = 2 ^ dev.irlen ∧
      dev.Survey = String.intercalate "\n" dev.surveyLines ∧
      ∀ i, i < 2 ^ dev.irlen →
        dev.surveyLines.getD i "" =
          match dev.WrIR (FromUint i dev.irlen) with
          | .error _ => "ir " ++ toString i ++ " can\x27t write ir"
          | .ok _ =>
            match dev.chain.drLength with
            | .error _ => "ir " ++ toString i ++ " drlen unknown"
            | .ok n =>
              "ir " ++ toString i ++ " drlen " ++
                toString (n - dev.devsAfter - dev.devsBefore)) ∧
    soloDev.surveyLines =
      ["ir 0 drlen 1", "ir 1 can\x27t write ir", "ir 2 drlen 1", "ir 3 drlen 1"] := by
  constructor
  · intro dev
    refine ⟨by simp [Device.surveyLines], rfl, ?_⟩
    intro i hi
    unfold Device.surveyLines
    rw [List.getD_eq_getElem?_getD, List.getElem?_map, List.getElem?_range hi]
    rfl
  · decide

/-- Witness for C8: the injected per-value failure at IR value 1 shows up
as the error line for index 1 while later lines are still produced. -/
theorem survey_line_per_ir_witness :
    soloDev.surveyLines.getD 1 "" = "ir 1 can\x27t write ir" ∧
    soloDev.surveyLines.getD 3 "" = "ir 3 drlen 1" := by
  constructor
  · exact ((survey_line_per_ir.1 soloDev).2.2 1 (by decide)).trans (by rfl)
  · exact ((survey_line_per_ir.1 soloDev).2.2 3 (by decide)).trans (by rfl)

/-- A Scan Driver whose IR capture ends in the mandatory `01` pattern. -/
def capDrv : Driver :=
  { scanIR := fun _ _ => .ok [false, false, true, false, true]
    scanDR := fun tdi _ _ => .ok tdi
    drLength := .ok 1 }

/-- A lone 5-bit-IR device whose captures end in `01`. -/
def devCapture : Device :=
  { idx := 0, chain := ⟨[⟨"d", 0, 5⟩], capDrv⟩, drv := capDrv, name := "d",
    idcode := 0, irlen := 5, irlenBefore := 0, irlenAfter := 0,
    devsBefore := 0, devsAfter := 0 }

/-- C9: `testIRCapture` sends `irlen` one-bits (inside the all-ones
chain-wide padding) to the IR scan with capture requested; on success it
returns exactly the test `captured value AND 3 = 1`, which holds exactly
when the bottom two bits of the stripped capture are binary `01`; on a
transport error it propagates the error (the Go pair `(false, err)`). -/
theorem testIRCapture_bottom_bits :
    (∀ (dev : Device) (e : JError),
      dev.drv.scanIR (Ones (dev.irlenBefore + dev.irlen + dev.irlenAfter)) true =
        .error e →
      dev.testIRCapture = .error e) ∧
    (∀ (dev : Device) (tdo : BitString),
      dev.drv.scanIR (Ones (dev.irlenBefore + dev.irlen + dev.irlenAfter)) true =
        .ok tdo →
      dev.testIRCapture =
        .ok (BitString.toNat
              (((tdo.DropHead dev.irlenBefore).DropTail dev.irlenAfter).take dev.irlen)
            &&& 3 == 1)) ∧
    (∀ (l : BitString) (b1 b0 : Bool),
      (BitString.toNat (l ++ [b1, b0]) &&& 3 = 1) ↔ (b1 = false ∧ b0 = true)) := by
  have hland : ∀ m : Nat, m &&& 3 = m % 4 := by
    intro m
    have h := Nat.and_pow_two_sub_one_eq_mod m 2
    simpa using h
  refine ⟨?_, ?_, ?_⟩
  · intro dev e hscan
    simp only [Device.testIRCapture, rdWrIR_eq, ones_append] at *
    rw [hscan]
    rfl
  · intro dev tdo hscan
    simp only [Device.testIRCapture, rdWrIR_eq, ones_append] at *
    rw [hscan]
    rfl
  · intro l b1 b0
    rw [toNat_append_two, hland]
    cases b1 <;> cases b0 <;> simp <;> omega

/-- Witness for C9: an all-ones loopback capture (bottom bits `11`) tests
false, a capture ending in `01` tests true, and a failing scan propagates
the transport error. -/
theorem testIRCapture_bottom_bits_witness :
    devMid.testIRCapture = .ok false ∧
    devCapture.testIRCapture = .ok true ∧
    devDead.testIRCapture = .error (.transport 7) := by
  refine ⟨?_, ?_, ?_⟩
  · exact (testIRCapture_bottom_bits.2.1 devMid (Ones 9) rfl).trans (by rfl)
  · exact (testIRCapture_bottom_bits.2.1 devCapture
      [false, false, true, false, true] rfl).trans (by rfl)
  · exact testIRCapture_bottom_bits.1 devDead (.transport 7) rfl

/-!
### State-passing forms of the device methods

The Go methods take the receiver by pointer, so a field assignment inside
a method body would mutate the `Device`.  To state the frame property the
method bodies are translated once more with the receiver threaded
explicitly through every statement: a field write would surface as a
changed `Device` in the returned pair.  The source bodies contain no
assignment to any `dev` field, which the theorems below make precise.
-/

namespace St

/-- State-passing `WrIR`. -/
def WrIR (dev : Device) (wr : BitString) : (Except JError Unit) × Device :=
  let tdi := ((Ones dev.irlenBefore).Tail wr).Tail1 dev.irlenAfter
  match dev.drv.scanIR tdi false with
  | .error err => (.error err, dev)
  | .ok _ => (.ok (), dev)

/-- State-passing `RdWrIR`. -/
def RdWrIR (dev : Device) (wr : BitString) : (Except JError BitString) × Device :=
  let tdi := ((Ones dev.irlenBefore).Tail wr).Tail1 dev.irlenAfter
  match dev.drv.scanIR tdi true with
  | .error err => (.error err, dev)
  | .ok tdo => (.ok ((tdo.DropHead dev.irlenBefore).DropTail dev.irlenAfter), dev)

/-- State-passing `WrDR`. -/
def WrDR (dev : Device) (wr : BitString) (idle : Nat) : (Except JError Unit) × Device :=
  let tdi := ((Ones dev.devsBefore).Tail wr).Tail1 dev.devsAfter
  match dev.drv.scanDR tdi idle false with
  | .error err => (.error err, dev)
  | .ok _ => (.ok (), dev)

/-- State-passing `RdWrDR`. -/
def RdWrDR (dev : Device) (wr : BitString) (idle : Nat) :
    (Except JError BitString) × Device :=
  let tdi := ((Ones dev.devsBefore).Tail wr).Tail1 dev.devsAfter
  match dev.drv.scanDR tdi idle true with
  | .error err => (.error err, dev)
  | .ok tdo => (.ok ((tdo.DropHead dev.devsBefore).DropTail dev.devsAfter), dev)

/-- State-passing `testIRCapture`. -/
def testIRCapture (dev : Device) : (Except JError Bool) × Device :=
  let (r, dev1) := RdWrIR dev (Ones dev.irlen)
  match r with
  | .error err => (.error err, dev1)
  | .ok rd =>
    let val := (rd.Split [dev1.irlen]).headD 0
    (.ok (val &&& 3 == 1), dev1)

/-- State-passing `GetIRLength`. -/
def GetIRLength (dev : Device) : Nat × Device := (dev.irlen, dev)

/-- State-passing `GetIDCode`. -/
def GetIDCode (dev : Device) : Nat × Device := (dev.idcode, dev)

/-- State-passing `GetDRLength`. -/
def GetDRLength (dev : Device) : (Except JError Int) × Device :=
  match dev.chain.drLength with
  | .error err => (.error err, dev)
  | .ok n => (.ok (n - dev.devsAfter - dev.devsBefore), dev)

/-- State-passing `CheckDR`. -/
def CheckDR (dev : Device) (ir : Nat) (drlen : Int) : (Except JError Nat) × Device :=
  let (r1, dev1) := WrIR dev (FromUint ir dev.irlen)
  match r1 with
  | .error _ => (.ok 0, dev1)
  | .ok _ =>
    let (r2, dev2) := GetDRLength dev1
    match r2 with
    | .error _ => (.ok 0, dev2)
    | .ok n =>
      if n ≠ drlen then (.error (.drLengthError ir n drlen), dev2)
      else
        let (r3, dev3) := RdWrDR dev2 (Zeros drlen.toNat) 0
        match r3 with
        | .error err => (.error err, dev3)
        | .ok tdo => (.ok ((tdo.Split [drlen.toNat]).headD 0), dev3)

/-- One iteration of the state-passing `Survey` loop: the accumulator
carries the report lines and the receiver. -/
def surveyStep (acc : List String × Device) (ir : Nat) : List String × Device :=
  let (s, d) := acc
  let (r, d1) := WrIR d (FromUint ir d.irlen)
  match r with
  | .error _ => (s ++ ["ir " ++ toString ir ++ " can\x27t write ir"], d1)
  | .ok _ =>
    match d1.chain.drLength with
    | .error _ => (s ++ ["ir " ++ toString ir ++ " drlen unknown"], d1)
    | .ok n =>
      (s ++ ["ir " ++ toString ir ++ " drlen " ++
        toString (n - d1.devsAfter - d1.devsBefore)], d1)

/-- State-passing `Survey`. -/
def Survey (dev : Device) : String × Device :=
  let acc := (List.range (2 ^ dev.irlen)).foldl surveyStep ([], dev)
  (String.intercalate "\n" acc.1, acc.2)

end St

/-- `St.WrIR` returns the direct result and the receiver unchanged. -/
theorem st_wrIR (dev : Device) (wr : BitString) :
    St.WrIR dev wr = (dev.WrIR wr, dev) := by
  simp only [St.WrIR, Device.WrIR]
  cases h : dev.drv.scanIR (((Ones dev.irlenBefore).Tail wr).Tail1 dev.irlenAfter) false <;>
    simp [h]

/-- `St.RdWrIR` returns the direct result and the receiver unchanged. -/
theorem st_rdWrIR (dev : Device) (wr : BitString) :
    St.RdWrIR dev wr = (dev.RdWrIR wr, dev) := by
  simp only [St.RdWrIR, Device.RdWrIR]
  cases h : dev.drv.scanIR (((Ones dev.irlenBefore).Tail wr).Tail1 dev.irlenAfter) true <;>
    simp [h]

/-- `St.WrDR` returns the direct result and the receiver unchanged. -/
theorem st_wrDR (dev : Device) (wr : BitString) (idle : Nat) :
    St.WrDR dev wr idle = (dev.WrDR wr idle, dev) := by
  simp only [St.WrDR, Device.WrDR]
  cases h : dev.drv.scanDR (((Ones dev.devsBefore).Tail wr).Tail1 dev.devsAfter) idle false <;>
    simp [h]

/-- `St.RdWrDR` returns the direct result and the receiver unchanged. -/
theorem st_rdWrDR (dev : Device) (wr : BitString) (idle : Nat) :
    St.RdWrDR dev wr idle = (dev.RdWrDR wr idle, dev) := by
  simp only [St.RdWrDR, Device.RdWrDR]
  cases h : dev.drv.scanDR (((Ones dev.devsBefore).Tail wr).Tail1 dev.devsAfter) idle true <;>
    simp [h]

/-- `St.testIRCapture` returns the direct result and the receiver
unchanged. -/
theorem st_testIRCapture (dev : Device) :
    St.testIRCapture dev = (dev.testIRCapture, dev) := by
  simp only [St.testIRCapture, Device.testIRCapture, st_rdWrIR]
  cases h : dev.RdWrIR (Ones dev.irlen) <;> simp [h]

/-- `St.GetDRLength` returns the direct result and the receiver
unchanged. -/
theorem st_getDRLength (dev : Device) :
    St.GetDRLength dev = (dev.GetDRLength, dev) := by
  simp only [St.GetDRLength, Device.GetDRLength]
  cases h : dev.chain.drLength <;> simp [h]

/-- `St.CheckDR` returns the direct result and the receiver unchanged. -/
theorem st_checkDR (dev : Device) (ir : Nat) (drlen : Int) :
    St.CheckDR dev ir drlen = (dev.CheckDR ir drlen, dev) := by
  simp only [St.CheckDR, Device.CheckDR, st_wrIR, st_getDRLength, st_rdWrDR]
  cases h1 : dev.WrIR (FromUint ir dev.irlen) with
  | error e => simp [h1]
  | ok u =>
    simp only [h1]
    cases h2 : dev.GetDRLength with
    | error e => simp [h2]
    | ok n =>
      simp only [h2]
      by_cases hc : n = drlen
      · subst hc
        cases h3 : dev.RdWrDR (Zeros n.toNat) 0 <;> simp [h3]
      · simp [hc]

/-- One step of the state-passing survey loop leaves the receiver in the
accumulator unchanged and appends the direct line. -/
theorem st_surveyStep (dev : Device) (s : List String) (ir : Nat) :
    St.surveyStep (s, dev) ir =
    (s ++ [(match dev.WrIR (FromUint ir dev.irlen) with
      | .error _ => "ir " ++ toString ir ++ " can\x27t write ir"
      | .ok _ =>
        match dev.chain.drLength with
        | .error _ => "ir " ++ toString ir ++ " drlen unknown"
        | .ok n =>
          "ir " ++ toString ir ++ " drlen " ++
            toString (n - dev.devsAfter - dev.devsBefore))], dev) := by
  simp only [St.surveyStep, st_wrIR]
  cases h1 : dev.WrIR (FromUint ir dev.irlen) <;> simp [h1]
  cases h2 : dev.chain.drLength <;> simp [h2]

/-- `St.Survey` returns the direct report and the receiver unchanged. -/
theorem st_survey (dev : Device) : St.Survey dev = (dev.Survey, dev) := by
  have hfold : ∀ (l : List Nat) (s : List String),
      l.foldl St.surveyStep (s, dev) =
      (s ++ l.map (fun ir =>
        match dev.WrIR (FromUint ir dev.irlen) with
        | .error _ => "ir " ++ toString ir ++ " can\x27t write ir"
        | .ok _ =>
          match dev.chain.drLength with
          | .error _ => "ir " ++ toString ir ++ " drlen unknown"
          | .ok n =>
            "ir " ++ toString ir ++ " drlen " ++
              toString (n - dev.devsAfter - dev.devsBefore)), dev) := by
    intro l
    induction l with
    | nil => intro s; simp
    | cons x xs ih =>
      intro s
      rw [List.foldl_cons, st_surveyStep dev s x, ih]
      simp
  simp only [St.Survey, Device.Survey, Device.surveyLines, hfold]
  simp

/-- C10: a `Device` is immutable: every device operation returns the
receiver with every field unchanged (the state-passing translations agree
with the direct ones and leave the `Device` intact), for every input and
whether the operation succeeds or fails. -/
theorem device_ops_preserve_fields :
    ∀ (dev : Device) (wr : BitString) (idle : Nat) (ir : Nat) (drlen : Int),
      St.WrIR dev wr = (dev.WrIR wr, dev) ∧
      St.RdWrIR dev wr = (dev.RdWrIR wr, dev) ∧
      St.WrDR dev wr idle = (dev.WrDR wr idle, dev) ∧
      St.RdWrDR dev wr idle = (dev.RdWrDR wr idle, dev) ∧
      St.testIRCapture dev = (dev.testIRCapture, dev) ∧
      St.GetIRLength dev = (dev.GetIRLength, dev) ∧
      St.GetIDCode dev = (dev.GetIDCode, dev) ∧
      St.GetDRLength dev = (dev.GetDRLength, dev) ∧
      St.CheckDR dev ir drlen = (dev.CheckDR ir drlen, dev) ∧
      St.Survey dev = (dev.Survey, dev) :=
  fun dev wr idle ir drlen =>
    ⟨st_wrIR dev wr, st_rdWrIR dev wr, st_wrDR dev wr idle, st_rdWrDR dev wr idle,
     st_testIRCapture dev, rfl, rfl, st_getDRLength dev, st_checkDR dev ir drlen,
     st_survey dev⟩

end Rvdbg
